import Mathlib

/-!
Shallow embedding of the HEPLAST filament-extruder controller
(`src/Sources/HEPLAST_14_25.ino`).

The sketch's `loop()` is modelled as a pure `tick` function from the persistent
state (`systemReady`, `fadeValue`, `fadeAmount`, `prevFadeMillis`) and the
tick's external inputs (`analogRead(POT_SPEED)`, the button level, `millis()`)
to the new state together with the actuator values written during that tick.
LCD and Serial output are pure sinks with no control influence and are omitted.

Numeric modelling choices:
- C `long` arithmetic in Arduino's `map` is modelled on `Int` with division by
  `Int.tdiv` (truncation toward zero, as in C). For the argument magnitudes
  reachable here (|x| ≤ 32767 from a 16-bit `int` reading, factor ≤ 300) the
  32-bit products stay far below 2^31, so unwrapped `Int` is faithful.
- The two `float` temperature constants 20.0 and 27.0 are exactly
  representable and only ever compared, which IEEE 754 does exactly, so they
  are modelled as exact rationals; `rpmTarget` is likewise modelled in ℚ.
- `millis()` returns `unsigned long`; the guard `millis() - prevFadeMillis`
  wraps mod 2^32, modelled by `usub32`. `millis()` is sampled once per tick.
-/

namespace Heplast

/-- C integer division: truncation toward zero, as performed on `long` by the
AVR C++ compiler inside Arduino's `map`. -/
def cppDiv (a b : Int) : Int := Int.tdiv a b

/-- Arduino `map(x, in_min, in_max, out_min, out_max)`:
`(x - in_min) * (out_max - out_min) / (in_max - in_min) + out_min`
in `long` arithmetic. -/
def arduinoMap (x inMin inMax outMin outMax : Int) : Int :=
  cppDiv ((x - inMin) * (outMax - outMin)) (inMax - inMin) + outMin

/-- `const float targetTemp = 20.0;` (exactly representable, modelled in ℚ). -/
def targetTemp : ℚ := 20

/-- `const float roomTempMock = 27.0;` (exactly representable, modelled in ℚ). -/
def roomTempMock : ℚ := 27

/-- `const int potZeroThreshold = 20;` -/
def potZeroThreshold : Int := 20

/-- `const int maxBreathBrightness = 50;` -/
def maxBreathBrightness : Int := 50

/-- `const int fadeDelay = 80;` (ms) -/
def fadeDelay : Nat := 80

/-- `float rpmTarget = map(potVal, 0, 1023, 0, 300) / 100.0;` -/
def rpmTarget (potVal : Int) : ℚ := (arduinoMap potVal 0 1023 0 300 : ℚ) / 100

/-- `int motorPWM = map(potVal, 0, 1023, 0, 255);` -/
def motorPWM (potVal : Int) : Int := arduinoMap potVal 0 1023 0 255

/-- The persistent globals mutated by `loop()`. -/
structure State where
  systemReady : Bool
  fadeValue : Int
  fadeAmount : Int
  prevFadeMillis : Nat
  deriving Repr, DecidableEq

/-- The external inputs sampled by one execution of `loop()`. `buttonLow`
is `digitalRead(BUTTON_PIN) == LOW`, i.e. the button reads pressed
(INPUT_PULLUP, active low). `now` is the value of `millis()`. -/
structure Inputs where
  potVal : Int
  buttonLow : Bool
  now : Nat
  deriving Repr, DecidableEq

/-- The actuator pin values written during one tick. For the power actuators
(relay, heater LED, motor) both branches of `loop()` write every pin every
tick, so these fields are the tick's definite final values; the status LED is
only written on some LOCKED ticks, recorded as an `Option`. -/
structure Outputs where
  relay : Bool
  heaterLed : Bool
  motorENB : Int
  motorIN3 : Bool
  motorIN4 : Bool
  ledReady : Option Int
  deriving Repr, DecidableEq

/-- Unsigned 32-bit subtraction `a - b` as computed on `unsigned long`. -/
def usub32 (a b : Nat) : Nat := (a % 2 ^ 32 + (2 ^ 32 - b % 2 ^ 32)) % 2 ^ 32

/-- The breathing-LED update body:
`fadeValue += fadeAmount; if (fadeValue <= 0 || fadeValue >= maxBreathBrightness) fadeAmount = -fadeAmount;`
returning the new `(fadeValue, fadeAmount)` pair. -/
def fadeStep (v a : Int) : Int × Int :=
  let v2 := v + a
  (v2, if v2 ≤ 0 ∨ v2 ≥ maxBreathBrightness then -a else a)

/-- One execution of `loop()`: from the current globals and this tick's raw
inputs to the new globals and the actuator writes of the tick. -/
def tick (s : State) (i : Inputs) : State × Outputs :=
  let pwm := motorPWM i.potVal
  if s.systemReady = false then
    -- LOCKED branch
    let fadeDue := fadeDelay ≤ usub32 i.now s.prevFadeMillis
    let fd := if fadeDue then fadeStep s.fadeValue s.fadeAmount
              else (s.fadeValue, s.fadeAmount)
    let pm := if fadeDue then i.now % 2 ^ 32 else s.prevFadeMillis
    let ready := if i.potVal < potZeroThreshold then
                   (if i.buttonLow then true else s.systemReady)
                 else s.systemReady
    let led : Option Int :=
      if i.potVal < potZeroThreshold ∧ i.buttonLow = true then
        some maxBreathBrightness
      else if fadeDue then some fd.1 else none
    ({ systemReady := ready, fadeValue := fd.1, fadeAmount := fd.2,
       prevFadeMillis := pm },
     -- "Ensure everything is OFF" runs unconditionally at the end of the branch
     { relay := false, heaterLed := false, motorENB := 0,
       motorIN3 := false, motorIN4 := false, ledReady := led })
  else
    -- UNLOCKED branch: state is not written at all
    (s,
     { relay := if roomTempMock < targetTemp then true else false,
       heaterLed := if roomTempMock < targetTemp then true else false,
       motorENB := pwm,
       motorIN3 := true, motorIN4 := false,
       ledReady := some maxBreathBrightness })

/-- The globals' values at startup. -/
def initState : State :=
  { systemReady := false, fadeValue := 0, fadeAmount := 2, prevFadeMillis := 0 }

/-- Iterating `tick` over a list of per-tick inputs, keeping the state. -/
def run (s : State) (l : List Inputs) : State :=
  l.foldl (fun s i => (tick s i).1) s

/-- The inductive invariant of the breathing animation state: the step is
always ±2, the brightness is even and in range, the upper bound is only
reached with the step already negated, and the lower bound only with the
step already positive. -/
def PairInv (v a : Int) : Prop :=
  (a = 2 ∨ a = -2) ∧ 2 ∣ v ∧ 0 ≤ v ∧ v ≤ maxBreathBrightness ∧
    (a = 2 → v ≤ maxBreathBrightness - 2) ∧ (a = -2 → 2 ≤ v)

lemma pairInv_fadeStep (v a : Int) (h : PairInv v a) :
    PairInv (fadeStep v a).1 (fadeStep v a).2 := by
  simp only [PairInv, fadeStep, maxBreathBrightness] at h ⊢
  split_ifs with hc <;> omega

lemma tick_armed_fst (s : State) (i : Inputs) (h : s.systemReady = true) :
    (tick s i).1 = s := by
  simp [tick, h]

lemma room_not_lt_target : ¬ roomTempMock < targetTemp := by
  norm_num [roomTempMock, targetTemp]

lemma tick_armed_snd (s : State) (i : Inputs) (h : s.systemReady = true) :
    (tick s i).2 =
      { relay := false, heaterLed := false, motorENB := motorPWM i.potVal,
        motorIN3 := true, motorIN4 := false,
        ledReady := some maxBreathBrightness } := by
  simp [tick, h, room_not_lt_target]

lemma pairInv_tick (s : State) (i : Inputs)
    (h : PairInv s.fadeValue s.fadeAmount) :
    PairInv (tick s i).1.fadeValue (tick s i).1.fadeAmount := by
  by_cases hr : s.systemReady = false
  · by_cases hc : fadeDelay ≤ usub32 i.now s.prevFadeMillis
    · simpa [tick, hr, hc] using pairInv_fadeStep _ _ h
    · simpa [tick, hr, hc] using h
  · rw [tick_armed_fst s i (by simpa using hr)]
    exact h

lemma pairInv_run (s : State) (l : List Inputs)
    (h : PairInv s.fadeValue s.fadeAmount) :
    PairInv (run s l).fadeValue (run s l).fadeAmount := by
  induction l generalizing s with
  | nil => exact h
  | cons a t ih => exact ih (tick s a).1 (pairInv_tick s a h)

lemma tdiv_le_tdiv (a b c : Int) (ha : 0 ≤ a) (hab : a ≤ b) (hc : 0 < c) :
    Int.tdiv a c ≤ Int.tdiv b c := by
  rw [Int.tdiv_eq_ediv ha hc.le, Int.tdiv_eq_ediv (ha.trans hab) hc.le]
  exact Int.ediv_le_ediv hc hab

lemma motorPWM_tdiv (v : Int) : motorPWM v = Int.tdiv (v * 255) 1023 := by
  simp [motorPWM, arduinoMap, cppDiv]

lemma rpmTarget_tdiv (v : Int) :
    rpmTarget v = (Int.tdiv (v * 300) 1023 : ℚ) / 100 := by
  simp [rpmTarget, arduinoMap, cppDiv]

/-- C1 (Interlock soundness): on every tick that starts in the LOCKED state,
the actuator writes of the tick are motor duty 0, both direction lines low,
heater relay off and heater indicator off, for arbitrary raw speed and button
inputs. The code forces these values unconditionally at the end of the LOCKED
branch, so they hold even on the tick performing the LOCKED→ARMED
transition, which the claim permits. -/
theorem locked_tick_actuators_off (s : State) (i : Inputs)
    (h : s.systemReady = false) :
    (tick s i).2.motorENB = 0 ∧ (tick s i).2.motorIN3 = false ∧
    (tick s i).2.motorIN4 = false ∧ (tick s i).2.relay = false ∧
    (tick s i).2.heaterLed = false := by
  simp [tick, h]

theorem locked_tick_actuators_off_witness :
    (tick initState ⟨1023, true, 5000⟩).2.motorENB = 0 ∧
    (tick initState ⟨1023, true, 5000⟩).2.motorIN3 = false ∧
    (tick initState ⟨1023, true, 5000⟩).2.motorIN4 = false ∧
    (tick initState ⟨1023, true, 5000⟩).2.relay = false ∧
    (tick initState ⟨1023, true, 5000⟩).2.heaterLed = false :=
  locked_tick_actuators_off initState ⟨1023, true, 5000⟩ rfl

/-- C2 (Arm-condition exactness): a tick starting LOCKED ends ARMED exactly
when the raw speed reading is strictly below `potZeroThreshold` and the
button reads LOW on that same tick; otherwise the machine stays LOCKED. -/
theorem arm_condition_exact (s : State) (i : Inputs)
    (h : s.systemReady = false) :
    (tick s i).1.systemReady = true ↔
      i.potVal < potZeroThreshold ∧ i.buttonLow = true := by
  simp only [tick, h, if_pos rfl]
  split_ifs with hp hb <;> simp_all

theorem arm_condition_exact_witness :
    ((tick initState ⟨5, true, 0⟩).1.systemReady = true ↔
      (5 : Int) < potZeroThreshold ∧ true = true) ∧
    ((tick initState ⟨50, true, 0⟩).1.systemReady = true ↔
      (50 : Int) < potZeroThreshold ∧ true = true) :=
  ⟨arm_condition_exact initState ⟨5, true, 0⟩ rfl,
   arm_condition_exact initState ⟨50, true, 0⟩ rfl⟩

/-- C4 (No disarm): from any state that is ARMED, running any finite sequence
of further ticks, with arbitrary raw speed and button inputs on each, leaves
the machine ARMED; no input sequence returns it to LOCKED within a run. -/
theorem no_disarm (s : State) (l : List Inputs) (h : s.systemReady = true) :
    (run s l).systemReady = true := by
  induction l generalizing s with
  | nil => exact h
  | cons a t ih =>
      exact ih (tick s a).1 (by rw [tick_armed_fst s a h]; exact h)

theorem no_disarm_witness :
    (run ⟨true, 50, 2, 0⟩
      [⟨0, true, 100⟩, ⟨1023, false, 200⟩, ⟨0, true, 300⟩]).systemReady
      = true :=
  no_disarm ⟨true, 50, 2, 0⟩
    [⟨0, true, 100⟩, ⟨1023, false, 200⟩, ⟨0, true, 300⟩] rfl

/-- C3 counterexample: on the tick performing the LOCKED→ARMED transition
(start state as at boot, raw speed 19, button LOW), the transition does fire,
yet the actuator writes are NOT the ARMED-computed ones: the direction line
IN3 stays low and the duty written is 0 although the tick's `driveDuty` is 4
— the LOCKED branch's forced all-off is not skipped. -/
theorem transition_tick_counterexample :
    (tick initState ⟨19, true, 1000⟩).1.systemReady = true ∧
    (tick initState ⟨19, true, 1000⟩).2.motorIN3 = false ∧
    (tick initState ⟨19, true, 1000⟩).2.motorENB = 0 ∧
    motorPWM 19 = 4 := by
  refine ⟨by decide, by decide, by decide, by decide⟩

/-- C3 amended: on the tick in which the LOCKED→ARMED transition fires, the
forced all-off enforcement of the LOCKED branch still executes, so that
tick's actuator outputs are the forced-off values (duty 0, both direction
lines low, relay and heater indicator off); actuation under ARMED rules
begins on the following tick (duty equal to that tick's `driveDuty`,
direction forward). -/
theorem transition_tick_forced_off (s : State) (i j : Inputs)
    (h : s.systemReady = false) (hp : i.potVal < potZeroThreshold)
    (hb : i.buttonLow = true) :
    (tick s i).1.systemReady = true ∧
    (tick s i).2.motorENB = 0 ∧ (tick s i).2.motorIN3 = false ∧
    (tick s i).2.motorIN4 = false ∧ (tick s i).2.relay = false ∧
    (tick s i).2.heaterLed = false ∧
    (tick (tick s i).1 j).2.motorENB = motorPWM j.potVal ∧
    (tick (tick s i).1 j).2.motorIN3 = true := by
  have h1 : (tick s i).1.systemReady = true := by simp [tick, h, hp, hb]
  have h2 := tick_armed_snd (tick s i).1 j h1
  refine ⟨h1, ?_, ?_, ?_, ?_, ?_, by rw [h2], by rw [h2]⟩ <;> simp [tick, h]

theorem transition_tick_forced_off_witness :
    (tick initState ⟨19, true, 1000⟩).1.systemReady = true ∧
    (tick initState ⟨19, true, 1000⟩).2.motorENB = 0 ∧
    (tick initState ⟨19, true, 1000⟩).2.motorIN3 = false ∧
    (tick initState ⟨19, true, 1000⟩).2.motorIN4 = false ∧
    (tick initState ⟨19, true, 1000⟩).2.relay = false ∧
    (tick initState ⟨19, true, 1000⟩).2.heaterLed = false ∧
    (tick (tick initState ⟨19, true, 1000⟩).1 ⟨1023, false, 2000⟩).2.motorENB
      = motorPWM 1023 ∧
    (tick (tick initState ⟨19, true, 1000⟩).1 ⟨1023, false, 2000⟩).2.motorIN3
      = true :=
  transition_tick_forced_off initState ⟨19, true, 1000⟩ ⟨1023, false, 2000⟩
    rfl (by decide) rfl

/-- C6 (Breathing triangle wave): over every finite run from the boot state,
whatever the per-tick inputs, the breathing brightness stays within
[0, maxBreathBrightness], the step is always +2 or −2, and at either bound
the step has already been negated away from the bound (step −2 at the top,
+2 at the bottom): the brightness follows a reflecting triangle wave. -/
theorem breathing_bounds (l : List Inputs) :
    0 ≤ (run initState l).fadeValue ∧
    (run initState l).fadeValue ≤ maxBreathBrightness ∧
    ((run initState l).fadeAmount = 2 ∨ (run initState l).fadeAmount = -2) ∧
    ((run initState l).fadeValue = maxBreathBrightness →
      (run initState l).fadeAmount = -2) ∧
    ((run initState l).fadeValue = 0 → (run initState l).fadeAmount = 2) := by
  have h := pairInv_run initState l
    (by norm_num [PairInv, initState, maxBreathBrightness])
  simp only [PairInv, maxBreathBrightness] at h ⊢
  omega

/-- C7 (Heater decision): on every ARMED tick the heater relay and the heater
indicator are each on exactly when the fixed room temperature is strictly
below the fixed target temperature; with the built-in constants (room 27,
target 20) both are off on every ARMED tick. Re-evaluation is idempotent by
construction, since `tick` is a function of the state and inputs alone. -/
theorem heater_decision (s : State) (i : Inputs) (h : s.systemReady = true) :
    ((tick s i).2.relay = true ↔ roomTempMock < targetTemp) ∧
    ((tick s i).2.heaterLed = true ↔ roomTempMock < targetTemp) ∧
    (tick s i).2.relay = false ∧ (tick s i).2.heaterLed = false := by
  have hcold : ¬ roomTempMock < targetTemp := by
    norm_num [roomTempMock, targetTemp]
  simp [tick, h, hcold]

theorem heater_decision_witness :
    ((tick ⟨true, 0, 2, 0⟩ ⟨512, false, 42⟩).2.relay = true ↔
      roomTempMock < targetTemp) ∧
    ((tick ⟨true, 0, 2, 0⟩ ⟨512, false, 42⟩).2.heaterLed = true ↔
      roomTempMock < targetTemp) ∧
    (tick ⟨true, 0, 2, 0⟩ ⟨512, false, 42⟩).2.relay = false ∧
    (tick ⟨true, 0, 2, 0⟩ ⟨512, false, 42⟩).2.heaterLed = false :=
  heater_decision ⟨true, 0, 2, 0⟩ ⟨512, false, 42⟩ rfl

/-- C10 (ARMED ticks are stateless): a tick executed while ARMED returns the
state unchanged — `systemReady` stays true and `fadeValue`, `fadeAmount`,
`prevFadeMillis` keep their values — and its actuator outputs are the same
for any two ARMED states given the same raw inputs, i.e. they depend only on
the tick's inputs. -/
theorem armed_tick_stateless (s s2 : State) (i : Inputs)
    (h : s.systemReady = true) (h2 : s2.systemReady = true) :
    (tick s i).1 = s ∧ (tick s2 i).2 = (tick s i).2 := by
  exact ⟨tick_armed_fst s i h, by simp [tick, h, h2]⟩

theorem armed_tick_stateless_witness :
    (tick ⟨true, 10, 2, 5⟩ ⟨800, false, 123⟩).1 = ⟨true, 10, 2, 5⟩ ∧
    (tick ⟨true, 44, -2, 999⟩ ⟨800, false, 123⟩).2 =
      (tick ⟨true, 10, 2, 5⟩ ⟨800, false, 123⟩).2 :=
  armed_tick_stateless ⟨true, 10, 2, 5⟩ ⟨true, 44, -2, 999⟩
    ⟨800, false, 123⟩ rfl rfl

/-- C5 counterexample: the code applies `map` to the raw reading with no
clamping, so the out-of-range raw value 1100 yields drive duty 274, outside
[0, 255]; the claim that the raw value is clamped before mapping and that
derived quantities stay in range for every input is false. -/
theorem clamping_counterexample :
    motorPWM 1100 = 274 ∧ ¬ motorPWM 1100 ≤ 255 := by
  refine ⟨by decide, by decide⟩

/-- C5 amended: the code performs no defensive clamping; for raw inputs
within the declared range [0, 1023] the derived drive duty lies in [0, 255]
and the derived target speed in its declared range [0, 3], but out-of-range
raw input is passed unclamped through `map` and can produce out-of-range
derived quantities. -/
theorem inRange_derived_bounds (v : Int) (h0 : 0 ≤ v) (h1 : v ≤ 1023) :
    0 ≤ motorPWM v ∧ motorPWM v ≤ 255 ∧
    0 ≤ rpmTarget v ∧ rpmTarget v ≤ 3 := by
  have hq0 : 0 ≤ Int.tdiv (v * 300) 1023 :=
    Int.tdiv_nonneg (by positivity) (by norm_num)
  have hq3 : Int.tdiv (v * 300) 1023 ≤ 300 := by
    have hmono := tdiv_le_tdiv (v * 300) (1023 * 300) 1023 (by positivity)
      (mul_le_mul_of_nonneg_right h1 (by norm_num)) (by norm_num)
    have hval : Int.tdiv (1023 * 300) 1023 = 300 := by decide
    omega
  refine ⟨?_, ?_, ?_, ?_⟩
  · rw [motorPWM_tdiv]
    exact Int.tdiv_nonneg (by positivity) (by norm_num)
  · rw [motorPWM_tdiv]
    have hmono := tdiv_le_tdiv (v * 255) (1023 * 255) 1023 (by positivity)
      (mul_le_mul_of_nonneg_right h1 (by norm_num)) (by norm_num)
    have hval : Int.tdiv (1023 * 255) 1023 = 255 := by decide
    omega
  · rw [rpmTarget_tdiv]
    exact div_nonneg (by exact_mod_cast hq0) (by norm_num)
  · rw [rpmTarget_tdiv]
    have hc : (Int.tdiv (v * 300) 1023 : ℚ) ≤ 300 := by exact_mod_cast hq3
    linarith

theorem inRange_derived_bounds_witness :
    0 ≤ motorPWM 512 ∧ motorPWM 512 ≤ 255 ∧
    0 ≤ rpmTarget 512 ∧ rpmTarget 512 ≤ 3 :=
  inRange_derived_bounds 512 (by norm_num) (by norm_num)

/-- C8 counterexample: the speed channel is not computed with exact division:
at raw value 1 the code yields target speed 0 (the `map` to 0..300 truncates
300/1023 to 0 before the division by 100), while the exact-division rescale
gives 300/1023/100 ≠ 0. -/
theorem sampler_speed_truncation_counterexample :
    rpmTarget 1 ≠ (1 * 300 : ℚ) / 1023 / 100 := by
  have h : arduinoMap 1 0 1023 0 300 = 0 := by decide
  simp only [rpmTarget, h, Int.cast_zero]
  norm_num

/-- C8 amended: for every raw value, the drive duty equals the linear rescale
(v · 255) / 1023 with integer truncation, and the target speed equals the
linear rescale of v from 0..1023 to 0..300 computed with the same integer
truncation (not exact division), then divided by 100. -/
theorem sampler_formulas (v : Int) :
    motorPWM v = Int.tdiv (v * 255) 1023 ∧
    rpmTarget v = (Int.tdiv (v * 300) 1023 : ℚ) / 100 :=
  ⟨motorPWM_tdiv v, rpmTarget_tdiv v⟩

/-- C9 (Monotonicity): for in-range raw values v1 < v2, both derived
quantities are monotonically non-decreasing: driveDuty v1 ≤ driveDuty v2 and
targetSpeed v1 ≤ targetSpeed v2. -/
theorem sampler_monotone (v1 v2 : Int) (h0 : 0 ≤ v1) (h12 : v1 < v2)
    (_h2 : v2 ≤ 1023) :
    motorPWM v1 ≤ motorPWM v2 ∧ rpmTarget v1 ≤ rpmTarget v2 := by
  have hd : Int.tdiv (v1 * 255) 1023 ≤ Int.tdiv (v2 * 255) 1023 :=
    tdiv_le_tdiv _ _ _ (by positivity)
      (mul_le_mul_of_nonneg_right h12.le (by norm_num)) (by norm_num)
  have hs : Int.tdiv (v1 * 300) 1023 ≤ Int.tdiv (v2 * 300) 1023 :=
    tdiv_le_tdiv _ _ _ (by positivity)
      (mul_le_mul_of_nonneg_right h12.le (by norm_num)) (by norm_num)
  refine ⟨?_, ?_⟩
  · rw [motorPWM_tdiv, motorPWM_tdiv]
    exact hd
  · rw [rpmTarget_tdiv, rpmTarget_tdiv]
    have hc : (Int.tdiv (v1 * 300) 1023 : ℚ) ≤ Int.tdiv (v2 * 300) 1023 := by
      exact_mod_cast hs
    linarith

theorem sampler_monotone_witness :
    motorPWM 100 ≤ motorPWM 900 ∧ rpmTarget 100 ≤ rpmTarget 900 :=
  sampler_monotone 100 900 (by norm_num) (by norm_num) (by norm_num)

end Heplast
